import Mathlib

/-!
Verification development for the mcp-read-only-grafana repository.

Python strings are shallowly embedded as `List Char` (ASCII fragment: the
string primitives below model the behaviour of the corresponding Python
`str` methods on ASCII input). Stateful code is embedded as explicit state
passing; fallible code returns `Except`.
-/

set_option autoImplicit false

/-- The whitespace characters stripped by Python `str.strip` (ASCII fragment). -/
def isPySpace (c : Char) : Bool :=
  c = ' ' || c = '\t' || c = '\n' || c = '\r' || c = '\x0b' || c = '\x0c'

/-- Python `str.strip()` (ASCII fragment): drop leading and trailing whitespace. -/
def pyStrip (s : List Char) : List Char :=
  ((s.dropWhile isPySpace).reverse.dropWhile isPySpace).reverse

/-- Python `sep in s` substring containment for a single-string needle. -/
def containsSub (needle : List Char) : List Char → Bool
  | [] => needle.isEmpty
  | c :: rest => needle.isPrefixOf (c :: rest) || containsSub needle rest

/-- Python `s.split(sep)` for a one-character separator (no maxsplit). -/
def pySplit (sep : Char) : List Char → List (List Char)
  | [] => [[]]
  | c :: rest =>
    if c = sep then [] :: pySplit sep rest
    else
      match pySplit sep rest with
      | [] => [[c]]
      | f :: fs => (c :: f) :: fs

/-- The remainder of `s` after its first occurrence of `c`; models
`s.split(c, 1)[1]` when `c` occurs in `s`. -/
def afterFirst (c : Char) (s : List Char) : List Char :=
  (s.dropWhile (fun x => x ≠ c)).drop 1

/-- Hexadecimal digit value, as used by percent-decoding. -/
def hexVal (c : Char) : Option Nat :=
  if '0' ≤ c ∧ c ≤ '9' then some (c.toNat - '0'.toNat)
  else if 'a' ≤ c ∧ c ≤ 'f' then some (c.toNat - 'a'.toNat + 10)
  else if 'A' ≤ c ∧ c ≤ 'F' then some (c.toNat - 'A'.toNat + 10)
  else none

/-- `urllib.parse.unquote` (ASCII fragment): decode `%XX` escapes, leaving
invalid escapes untouched. -/
def unquote : List Char → List Char
  | [] => []
  | c :: rest =>
    if c = '%' then
      match rest with
      | a :: b :: rest2 =>
        match hexVal a, hexVal b with
        | some x, some y => Char.ofNat (16 * x + y) :: unquote rest2
        | _, _ => '%' :: unquote (a :: b :: rest2)
      | [] => ['%']
      | [a] => '%' :: unquote [a]
    else c :: unquote rest

/-- Python `s.startswith(pre)`. -/
def pyStartsWith (s pre : List Char) : Bool :=
  pre.isPrefixOf s

/-- Python `str.upper` on one character (ASCII fragment). -/
def pyUpperChar (c : Char) : Char :=
  c.toUpper

/-! ## `src/config.py`: `GrafanaConnection` -/

/-- Membership in the character set `[A-Za-z0-9_-]` named by the spec. -/
def allowedNameChar (c : Char) : Bool :=
  c.isAlpha || c.isDigit || c = '_' || c = '-'

/-- Python `str.isalnum` on one character (ASCII fragment). -/
def pyIsAlnumChar (c : Char) : Bool :=
  c.isAlpha || c.isDigit

/-- Python `s.isalnum()`: nonempty and every character alphanumeric
(ASCII fragment). -/
def pyIsAlnum (s : List Char) : Bool :=
  !s.isEmpty && s.all pyIsAlnumChar

/-- `GrafanaConnection.validate_connection_name`: the name with `_` and `-`
removed must satisfy `isalnum`; returns `true` when the name is accepted
(the Python validator raises `ValueError` otherwise). -/
def validate_connection_name (v : List Char) : Bool :=
  pyIsAlnum (v.filter (fun c => c ≠ '_' && c ≠ '-'))

/-- `GrafanaConnection.get_env_var_name`:
`"GRAFANA_SESSION_" + name.upper().replace("-", "_")`. -/
def get_env_var_name (name : List Char) : List Char :=
  "GRAFANA_SESSION_".toList ++ (name.map pyUpperChar).map (fun c => if c = '-' then '_' else c)

/-- One pass of the `.env` update loop in
`GrafanaConnection._persist_token_to_env`: replace the first line starting
with `KEY=` by `KEY=new_token`; the boolean is the `updated` flag. -/
def pyLinesUpdate (key tok : List Char) : List (List Char) → List (List Char) × Bool
  | [] => ([], false)
  | l :: ls =>
    if pyStartsWith l (key ++ ['=']) then ((key ++ '=' :: tok) :: ls, true)
    else
      let r := pyLinesUpdate key tok ls
      (l :: r.1, r.2)

/-- `GrafanaConnection._persist_token_to_env`, with the `.env` file embedded
as `Option (List (List Char))` (`none` = file absent, otherwise its lines):
no-op when the file is absent; otherwise rewrite the first `KEY=` line and
write back only when a line was updated. -/
def persist_token_to_env (key tok : List Char) :
    Option (List (List Char)) → Option (List (List Char))
  | none => none
  | some lines =>
    let r := pyLinesUpdate key tok lines
    if r.2 then some r.1 else some lines

/-- Value associated with `key` in `.env` lines: the first line starting with
`KEY=`, with that marker removed (models `os.getenv` after `load_dotenv`). -/
def lookupEnvLines (key : List Char) : List (List Char) → Option (List Char)
  | [] => none
  | l :: ls =>
    if pyStartsWith l (key ++ ['=']) then some (l.drop (key.length + 1))
    else lookupEnvLines key ls

/-! ## `src/grafana_connector.py`: `GrafanaConnector` -/

/-- State of one `GrafanaConnector` together with the parts of the world it
touches: the in-memory `connection.session_token`, the `.env` credential file
(`none` = absent), the `grafana_session` cookie of the owned httpx client,
the connection name, and a ghost trace of the store-write attempts issued
through `update_session_token(_, persist=True)`. -/
structure ConnState where
  token : List Char
  envFile : Option (List (List Char))
  cookie : List Char
  name : List Char
  writes : List (List Char)
  deriving Repr, DecidableEq

/-- `GrafanaConnection.update_session_token(new_token, persist=True)` followed
by `client.cookies.set("grafana_session", new_token)`, as performed inside
`_check_and_update_session_cookie` when a differing token is seen. -/
def applyRotation (st : ConnState) (newTok : List Char) : ConnState :=
  { st with
    token := newTok
    envFile := persist_token_to_env (get_env_var_name st.name) newTok st.envFile
    cookie := newTok
    writes := st.writes ++ [newTok] }

/-- The per-header inner loop of `_check_and_update_session_cookie`: scan the
`;`-separated parts for the first one starting with `grafana_session=`,
extract and percent-decode its value, update on difference, then break. -/
def processParts (st : ConnState) : List (List Char) → ConnState
  | [] => st
  | p :: ps =>
    let p' := pyStrip p
    if pyStartsWith p' "grafana_session=".toList then
      let newTok := unquote (afterFirst '=' p')
      if newTok ≠ st.token then applyRotation st newTok else st
    else processParts st ps

/-- One iteration of the outer loop of `_check_and_update_session_cookie`:
headers not containing the substring `grafana_session=` are skipped. -/
def processHeader (st : ConnState) (header : List Char) : ConnState :=
  if containsSub "grafana_session=".toList header then processParts st (pySplit ';' header)
  else st

/-- `GrafanaConnector._check_and_update_session_cookie`, iterating over all
`set-cookie` headers of the response (the `break` in the source only exits
the inner parts loop, so every header is visited). -/
def check_and_update_session_cookie (st : ConnState) (setCookieHeaders : List (List Char)) :
    ConnState :=
  setCookieHeaders.foldl processHeader st

/-- An HTTP response as observed by `_get`: status code, the list of
`set-cookie` header values, the parsed JSON body (abstracted) and the raw
text used in error messages. -/
structure HttpResponse (α : Type) where
  status : Nat
  setCookies : List (List Char)
  body : α
  text : List Char

/-- The classified failures `_get` can raise (timeouts and transport errors
are outside the embedding). -/
inductive GetError where
  | missingCredential (name envVar : List Char)
  | authExpired (name : List Char)
  | permissionDenied (name : List Char)
  | httpError (status : Nat) (text : List Char)
  deriving Repr, DecidableEq

/-- `GrafanaConnector._get`, given the response the server would return:
reload the token from the credential file (raising on a missing or empty
value), refresh the outgoing client cookie, then — only when
`raise_for_status` passes, i.e. on a 2xx status — run the set-cookie
rotation check and return the body; any non-2xx status is classified and
raised before the rotation check is reached. -/
def pyGet {α : Type} (st : ConnState) (resp : HttpResponse α) :
    Except GetError α × ConnState :=
  let envVar := get_env_var_name st.name
  match st.envFile.bind (lookupEnvLines envVar) with
  | none => (.error (.missingCredential st.name envVar), st)
  | some tok =>
    if tok.isEmpty then (.error (.missingCredential st.name envVar), st)
    else
      let st1 := { st with token := tok, cookie := tok }
      if 200 ≤ resp.status ∧ resp.status < 300 then
        (.ok resp.body, check_and_update_session_cookie st1 resp.setCookies)
      else if resp.status = 401 then (.error (.authExpired st.name), st1)
      else if resp.status = 403 then (.error (.permissionDenied st.name), st1)
      else (.error (.httpError resp.status resp.text), st1)

/-! ## `src/grafana_connector.py`: `list_alerts` and the legacy fallback -/

/-- The `grafana_alert` sub-object of a unified alert rule (the fields read
by `list_alerts`). -/
structure UnifiedRule where
  uid : Option String
  title : Option String
  condition : Option String
  data : Option String
  noDataState : Option String
  execErrState : Option String
  deriving Repr, DecidableEq

/-- One evaluation group of the unified-alerting rules payload. -/
structure RuleGroup where
  name : Option String
  interval : Option String
  rules : List UnifiedRule
  deriving Repr, DecidableEq

/-- The dictionary built per rule by `list_alerts`. -/
structure FormattedAlert where
  uid : Option String
  title : Option String
  condition : Option String
  data : Option String
  no_data_state : Option String
  exec_err_state : Option String
  folder : String
  evaluation_group : Option String
  evaluation_interval : Option String
  deriving Repr, DecidableEq

/-- A legacy alert as returned by `/api/alerts` (the fields read by
`_list_legacy_alerts`). -/
structure LegacyAlert where
  id : Option Nat
  dashboardId : Option Nat
  panelId : Option Nat
  name : Option String
  state : Option String
  newStateDate : Option String
  evalData : Option String
  dashboardUid : Option String
  dashboardSlug : Option String
  dashboardTitle : Option String
  panelTitle : Option String
  deriving Repr, DecidableEq

/-- The dictionary built per legacy alert by `_list_legacy_alerts`. -/
structure LegacyFormattedAlert where
  id : Option Nat
  dashboard_id : Option Nat
  panel_id : Option Nat
  name : Option String
  state : Option String
  new_state_date : Option String
  eval_data : Option String
  dashboard_uid : Option String
  dashboard_slug : Option String
  dashboard_title : Option String
  panel_title : Option String
  deriving Repr, DecidableEq

/-- An element of the list returned by `list_alerts`: either a unified-rule
dictionary or a legacy-alert dictionary (the two shapes differ in Python). -/
inductive AlertEntry where
  | unified (a : FormattedAlert)
  | legacy (a : LegacyFormattedAlert)
  deriving Repr, DecidableEq

/-- Python `s.startswith(pre)` on `String` values. -/
def pyStartsWithS (s pre : String) : Bool :=
  pre.toList.isPrefixOf s.toList

/-- The namespace filter of `list_alerts`:
`if folder_uid and not namespace.startswith(folder_uid): continue` —
a namespace is skipped iff `folder_uid` is truthy (present and nonempty)
and is not a string-prefix of the namespace key. -/
def nsSkipped (folder_uid : Option String) (ns : String) : Bool :=
  match folder_uid with
  | none => false
  | some f => !f.isEmpty && !pyStartsWithS ns f

/-- The per-rule dictionary construction of `list_alerts`. -/
def formatUnifiedRule (ns : String) (g : RuleGroup) (r : UnifiedRule) : FormattedAlert :=
  { uid := r.uid, title := r.title, condition := r.condition, data := r.data
    no_data_state := r.noDataState, exec_err_state := r.execErrState
    folder := ns, evaluation_group := g.name, evaluation_interval := g.interval }

/-- The flattening loop of `list_alerts` over the rules payload (an assoc
list in dictionary iteration order), including the namespace filter. -/
def formatUnifiedRules (folder_uid : Option String)
    (rules : List (String × List RuleGroup)) : List FormattedAlert :=
  (rules.map (fun p =>
    if nsSkipped folder_uid p.1 then []
    else (p.2.map (fun g => g.rules.map (formatUnifiedRule p.1 g))).flatten)).flatten

/-- The per-alert dictionary construction of `_list_legacy_alerts`. -/
def formatLegacyAlert (a : LegacyAlert) : LegacyFormattedAlert :=
  { id := a.id, dashboard_id := a.dashboardId, panel_id := a.panelId
    name := a.name, state := a.state, new_state_date := a.newStateDate
    eval_data := a.evalData, dashboard_uid := a.dashboardUid
    dashboard_slug := a.dashboardSlug, dashboard_title := a.dashboardTitle
    panel_title := a.panelTitle }

/-- `GrafanaConnector._list_legacy_alerts`, with the outcome of the
`/api/alerts` call supplied as an `Except`: any failure is absorbed into an
empty list. -/
def list_legacy_alerts (legacyCall : Except String (List LegacyAlert)) :
    Except String (List AlertEntry) :=
  match legacyCall with
  | .error _ => .ok []
  | .ok alerts => .ok ((alerts.map formatLegacyAlert).map .legacy)

/-- `GrafanaConnector.list_alerts`, with the outcomes of the unified-rules
call and of the legacy call supplied as `Except` values: any failure of the
unified call falls back to `_list_legacy_alerts`. -/
def list_alerts (folder_uid : Option String)
    (unifiedCall : Except String (List (String × List RuleGroup)))
    (legacyCall : Except String (List LegacyAlert)) :
    Except String (List AlertEntry) :=
  match unifiedCall with
  | .error _ => list_legacy_alerts legacyCall
  | .ok rules => .ok ((formatUnifiedRules folder_uid rules).map .unified)

/-! ## `explore_query` (modelled from the spec) -/

/-- The reserved top-level keys of the Explore query payload. -/
def exploreReservedKeys : List String :=
  ["queries", "from", "to", "maxDataPoints", "intervalMs"]

/-- The error raised by `explore_query` on a reserved-key collision. -/
inductive ExploreError where
  | invalidArgument (key : String)
  deriving Repr, DecidableEq

/-- The JSON body assembled by `explore_query`: the reserved fields plus the
caller-supplied additional top-level options (values abstracted as strings). -/
structure ExplorePayload where
  queries : List String
  timeFrom : String
  timeTo : String
  maxDataPoints : Nat
  intervalMs : Nat
  additional : List (String × String)
  deriving Repr, DecidableEq

/-- Modelled from the spec: the implementation of
`GrafanaConnector.explore_query` is absent from the provided sources (only
`src/tests/test_explore_query.py` exercises it). Per spec section 4.2, it
builds a JSON body combining the query list, `from`/`to`, `maxDataPoints`,
`intervalMs` and any additional caller-supplied top-level options, and an
additional option whose key collides with one of the reserved keys fails
with `InvalidArgument` before any network call is made; the second
component is the trace of network requests issued. -/
def explore_query (queries : List String) (range_from range_to : String)
    (max_data_points interval_ms : Nat)
    (additional_options : List (String × String)) :
    Except ExploreError ExplorePayload × List String :=
  match additional_options.find? (fun kv => exploreReservedKeys.contains kv.1) with
  | some kv => (.error (.invalidArgument kv.1), [])
  | none =>
    (.ok { queries := queries, timeFrom := range_from, timeTo := range_to
           maxDataPoints := max_data_points, intervalMs := interval_ms
           additional := additional_options },
     ["/api/ds/query"])

/-! ## `src/server.py`: `ReadOnlyGrafanaServer._setup_tools` -/

/-- The connection record as held by the server (fields of
`GrafanaConnection` after loading). -/
structure ConnRecord where
  connection_name : String
  url : String
  description : String
  timeout : Nat
  verify_ssl : Bool
  session_token : Option String
  deriving Repr, DecidableEq

/-- The per-connection dictionary built by the `list_connections` tool:
exactly the fields name, url, description, timeout, verify_ssl. -/
structure ConnInfo where
  name : String
  url : String
  description : String
  timeout : Nat
  verify_ssl : Bool
  deriving Repr, DecidableEq

/-- The projection applied per connection by `list_connections`. -/
def connInfoOf (c : ConnRecord) : ConnInfo :=
  { name := c.connection_name, url := c.url, description := c.description
    timeout := c.timeout, verify_ssl := c.verify_ssl }

/-- The structured output of the `list_connections` tool (before JSON
serialisation): a message when no connection is configured, otherwise the
list of per-connection dictionaries. -/
inductive ListConnectionsResult where
  | noConnections
  | connections (infos : List ConnInfo)
  deriving Repr, DecidableEq

/-- The `list_connections` tool of `_setup_tools`. -/
def server_list_connections (conns : List ConnRecord) : ListConnectionsResult :=
  if conns.isEmpty then .noConnections
  else .connections (conns.map connInfoOf)

/-- A single quote character, used in the unknown-connection message. -/
def sglQuote : String :=
  String.singleton (Char.ofNat 39)

/-- The message of the `ValueError` raised by every dispatched tool when the
connection name is not registered:
`Connection <name> not found. Available connections: <keys>` with the name
single-quoted and the registered keys joined by a comma and space. -/
def unknownConnectionMessage (name : String) (connectors : List String) : String :=
  "Connection " ++ sglQuote ++ name ++ sglQuote ++ " not found. Available connections: " ++
    String.intercalate ", " connectors

/-- The tools registered by `_setup_tools` that take a `connection_name`
argument (every tool except `list_connections`). -/
inductive ServerOp where
  | getHealth
  | searchDashboards
  | getDashboardInfo
  | getDashboardPanel
  | getDashboard
  | getDashboardPanels
  | listFolders
  | listDatasources
  | queryPrometheus
  | queryLoki
  | getCurrentOrg
  | listUsers
  | listTeams
  | getAlertRuleByUid
  | listFolderDashboards
  | listAnnotations
  | getDashboardVersions
  | listAlerts
  deriving Repr, DecidableEq

/-- The connector call a tool delegates to once the registry check has
passed, abstracted as the name of the connector method it invokes. -/
def opDelegate : ServerOp → String
  | .getHealth => "get_health"
  | .searchDashboards => "search_dashboards"
  | .getDashboardInfo => "get_dashboard_info"
  | .getDashboardPanel => "get_dashboard_panel"
  | .getDashboard => "get_dashboard"
  | .getDashboardPanels => "get_dashboard_panels"
  | .listFolders => "list_folders"
  | .listDatasources => "list_datasources"
  | .queryPrometheus => "query_prometheus"
  | .queryLoki => "query_loki"
  | .getCurrentOrg => "get_current_org"
  | .listUsers => "list_users"
  | .listTeams => "list_teams"
  | .getAlertRuleByUid => "get_alert_rule_by_uid"
  | .listFolderDashboards => "list_folder_dashboards"
  | .listAnnotations => "list_annotations"
  | .getDashboardVersions => "get_dashboard_versions"
  | .listAlerts => "list_alerts"

/-- One dispatched tool of `_setup_tools`: every handler body begins with
`if connection_name not in self.connectors: raise ValueError(...)` and only
then delegates to the connector; the second component is the trace of
connector calls (and hence network activity) the handler performs. -/
def dispatchOp (connectors : List String) (op : ServerOp) (connection_name : String) :
    Except String Unit × List String :=
  if connectors.contains connection_name then (.ok (), [opDelegate op])
  else (.error (unknownConnectionMessage connection_name connectors), [])

/-! ## Derived notions used by the statements -/

/-- A cookie value in the form the claims quantify over: no whitespace, no
`;` separator and no `%` escape, so that header parsing and percent-decoding
return it unchanged. -/
def cleanTok (v : List Char) : Bool :=
  v.all (fun c => !isPySpace c && c ≠ ';' && c ≠ '%')

/-- The response header `grafana_session=VALUE; Path=/` of the claims. -/
def sessionHeader (v : List Char) : List Char :=
  "grafana_session=".toList ++ v ++ "; Path=/".toList

/-- The key line marker `KEY=` of the credential store. -/
def keyMarker (key : List Char) : List Char :=
  key ++ ['=']

/-! ## Helper lemmas on the string primitives -/

theorem isPrefixOf_append_self (l r : List Char) : l.isPrefixOf (l ++ r) = true := by
  rw [List.isPrefixOf_iff_prefix]
  exact List.prefix_append l r

theorem containsSub_of_prefixTrue (needle h : List Char) (hp : needle.isPrefixOf h = true) :
    containsSub needle h = true := by
  cases h with
  | nil =>
    cases needle with
    | nil => rfl
    | cons a t => simp [List.isPrefixOf] at hp
  | cons c rest => simp [containsSub, hp]

theorem dropWhile_eq_self_of_not (p : Char → Bool) (l : List Char)
    (h : ∀ c ∈ l, p c = false) : l.dropWhile p = l := by
  cases l with
  | nil => rfl
  | cons a t => simp [List.dropWhile_cons, h a (List.mem_cons_self a t)]

theorem pyStrip_eq_self (l : List Char) (h : ∀ c ∈ l, isPySpace c = false) :
    pyStrip l = l := by
  unfold pyStrip
  rw [dropWhile_eq_self_of_not _ _ h,
    dropWhile_eq_self_of_not _ _ (fun c hc => h c (List.mem_reverse.mp hc)),
    List.reverse_reverse]

theorem pySplit_append (sep : Char) (xs ys : List Char) (h : sep ∉ xs) :
    pySplit sep (xs ++ sep :: ys) = xs :: pySplit sep ys := by
  induction xs with
  | nil => simp [pySplit]
  | cons a t ih =>
    have ha : ¬a = sep := fun e => h (e ▸ List.mem_cons_self a t)
    have ih' := ih (fun hm => h (List.mem_cons_of_mem a hm))
    simp only [List.cons_append, pySplit, if_neg ha, List.append_eq, ih']

theorem afterFirst_append (sep : Char) (xs ys : List Char) (h : sep ∉ xs) :
    afterFirst sep (xs ++ sep :: ys) = ys := by
  unfold afterFirst
  have hdw : (xs ++ sep :: ys).dropWhile (fun x => x ≠ sep) = sep :: ys := by
    induction xs with
    | nil => simp [List.dropWhile_cons]
    | cons a t ih =>
      have ha : a ≠ sep := fun e => h (e ▸ List.mem_cons_self a t)
      have ih' := ih (fun hm => h (List.mem_cons_of_mem a hm))
      simp only [ne_eq, decide_not] at ih' ⊢
      simp [List.dropWhile_cons, ha, ih']
  rw [hdw, List.drop_one, List.tail_cons]

theorem unquote_no_percent (v : List Char) (h : '%' ∉ v) : unquote v = v := by
  induction v with
  | nil => rfl
  | cons c t ih =>
    have hc : ¬c = '%' := fun e => h (e ▸ List.mem_cons_self c t)
    have ih' := ih (fun hm => h (List.mem_cons_of_mem c hm))
    unfold unquote
    rw [if_neg hc, ih']

theorem cleanTok_props (v : List Char) (hv : cleanTok v = true) :
    ∀ c ∈ v, isPySpace c = false ∧ c ≠ ';' ∧ c ≠ '%' := by
  intro c hc
  have h1 := List.all_eq_true.mp hv c hc
  simp only [Bool.and_eq_true, Bool.not_eq_true', decide_eq_true_eq] at h1
  exact ⟨h1.1.1, h1.1.2, h1.2⟩

theorem processParts_session (st : ConnState) (v : List Char) (rest : List (List Char))
    (hv : cleanTok v = true) :
    processParts st (("grafana_session=".toList ++ v) :: rest) =
      if v = st.token then st else applyRotation st v := by
  have hcomp := cleanTok_props v hv
  have hlit : ∀ c ∈ "grafana_session=".toList, isPySpace c = false := by decide
  have hnospace : ∀ c ∈ "grafana_session=".toList ++ v, isPySpace c = false := by
    intro c hc
    rcases List.mem_append.mp hc with h1 | h2
    · exact hlit c h1
    · exact (hcomp c h2).1
  have hstrip := pyStrip_eq_self _ hnospace
  have hpre : pyStartsWith ("grafana_session=".toList ++ v) "grafana_session=".toList = true :=
    isPrefixOf_append_self _ _
  have hafter : afterFirst '=' ("grafana_session=".toList ++ v) = v := by
    have he : "grafana_session=".toList = "grafana_session".toList ++ ['='] := by decide
    rw [he, List.append_assoc]
    exact afterFirst_append '=' _ v (by decide)
  have hunq : unquote v = v := unquote_no_percent v (fun hm => (hcomp '%' hm).2.2 rfl)
  simp only [processParts, hstrip, hpre, hafter, hunq, if_pos rfl]
  by_cases hvt : v = st.token
  · simp [hvt]
  · simp [hvt]

theorem processHeader_session (st : ConnState) (v : List Char) (hv : cleanTok v = true) :
    processHeader st (sessionHeader v) = if v = st.token then st else applyRotation st v := by
  have hcomp := cleanTok_props v hv
  have hsem : ';' ∉ "grafana_session=".toList ++ v := by
    intro hm
    rcases List.mem_append.mp hm with h1 | h2
    · revert h1; decide
    · exact (hcomp ';' h2).2.1 rfl
  have hcontains : containsSub "grafana_session=".toList (sessionHeader v) = true := by
    apply containsSub_of_prefixTrue
    unfold sessionHeader
    rw [List.append_assoc]
    exact isPrefixOf_append_self _ _
  have hsplit : pySplit ';' (sessionHeader v) =
      ("grafana_session=".toList ++ v) :: pySplit ';' " Path=/".toList := by
    show pySplit ';' (("grafana_session=".toList ++ v) ++ ';' :: " Path=/".toList) = _
    exact pySplit_append ';' _ _ hsem
  unfold processHeader
  rw [hcontains, if_pos rfl, hsplit]
  exact processParts_session st v _ hv

theorem token_after_sessionHeader (st : ConnState) (v : List Char) (hv : cleanTok v = true) :
    (processHeader st (sessionHeader v)).token = v := by
  rw [processHeader_session st v hv]
  by_cases h : v = st.token
  · simp [h]
  · simp [h, applyRotation]

theorem pyLinesUpdate_no_match (key tok : List Char) (lines : List (List Char))
    (h : ∀ l ∈ lines, pyStartsWith l (key ++ ['=']) = false) :
    pyLinesUpdate key tok lines = (lines, false) := by
  induction lines with
  | nil => rfl
  | cons l ls ih =>
    simp [pyLinesUpdate, h l (List.mem_cons_self l ls),
      ih (fun x hx => h x (List.mem_cons_of_mem l hx))]

theorem pyLinesUpdate_match (key tok : List Char) (lines : List (List Char)) (i : Nat)
    (h : List.findIdx? (fun l => pyStartsWith l (key ++ ['='])) lines = some i) :
    pyLinesUpdate key tok lines = (lines.set i (key ++ '=' :: tok), true) := by
  induction lines generalizing i with
  | nil => simp [List.findIdx?] at h
  | cons l ls ih =>
    rw [List.findIdx?_cons] at h
    by_cases hl : pyStartsWith l (key ++ ['=']) = true
    · rw [if_pos hl] at h
      obtain rfl : (0 : Nat) = i := Option.some.inj h
      simp [pyLinesUpdate, hl]
    · rw [if_neg hl, List.findIdx?_succ] at h
      obtain ⟨j, hj, rfl⟩ := Option.map_eq_some'.mp h
      simp [pyLinesUpdate, hl, ih j hj]

theorem lookupEnvLines_update (key tok : List Char) (lines : List (List Char))
    (h : lines.any (fun l => pyStartsWith l (key ++ ['='])) = true) :
    (pyLinesUpdate key tok lines).2 = true ∧
    lookupEnvLines key (pyLinesUpdate key tok lines).1 = some tok := by
  induction lines with
  | nil => simp at h
  | cons l ls ih =>
    by_cases hl : pyStartsWith l (key ++ ['=']) = true
    · have hkey : pyStartsWith (key ++ '=' :: tok) (key ++ ['=']) = true := by
        unfold pyStartsWith
        have he : key ++ '=' :: tok = (key ++ ['=']) ++ tok := by simp
        rw [he]
        exact isPrefixOf_append_self _ _
      have hdrop : (key ++ '=' :: tok).drop (key.length + 1) = tok := by
        have he : key ++ '=' :: tok = (key ++ ['=']) ++ tok := by simp
        have h1 : key.length + 1 = (key ++ ['=']).length + 0 := by simp
        rw [he, h1, List.drop_append]
        rfl
      constructor
      · simp [pyLinesUpdate, hl]
      · simp [pyLinesUpdate, hl, lookupEnvLines, hkey, hdrop]
    · have hany : ls.any (fun l => pyStartsWith l (key ++ ['='])) = true := by
        rw [List.any_cons] at h
        rcases Bool.or_eq_true_iff.mp h with h1 | h2
        · exact absurd h1 hl
        · exact h2
      obtain ⟨h2, h3⟩ := ih hany
      constructor
      · simp [pyLinesUpdate, hl, h2]
      · simp [pyLinesUpdate, hl, lookupEnvLines, h3]

/-! ## Claim theorems -/

/-- C1: after processing a successful response carrying
`grafana_session=NEW; Path=/` with `NEW` different from the current token,
the in-memory token, the persisted credential-store value and the client
cookie all equal `NEW`; when the header carries the current token, the
processing is a no-op (no store write occurs). -/
theorem session_rotation_roundtrip
    (name v tok : List Char) (lines : List (List Char))
    (hv : cleanTok v = true)
    (hkey : lines.any (fun l => pyStartsWith l (get_env_var_name name ++ ['='])) = true)
    (hne : v ≠ tok) :
    ((check_and_update_session_cookie ⟨tok, some lines, tok, name, []⟩ [sessionHeader v]).token = v ∧
     (check_and_update_session_cookie ⟨tok, some lines, tok, name, []⟩
        [sessionHeader v]).envFile.bind (lookupEnvLines (get_env_var_name name)) = some v ∧
     (check_and_update_session_cookie ⟨tok, some lines, tok, name, []⟩ [sessionHeader v]).cookie = v) ∧
    check_and_update_session_cookie ⟨v, some lines, v, name, []⟩ [sessionHeader v] =
      ⟨v, some lines, v, name, []⟩ := by
  have h1 : check_and_update_session_cookie ⟨tok, some lines, tok, name, []⟩ [sessionHeader v] =
      applyRotation ⟨tok, some lines, tok, name, []⟩ v := by
    show processHeader _ (sessionHeader v) = _
    rw [processHeader_session _ v hv]
    exact if_neg hne
  have hupd := lookupEnvLines_update (get_env_var_name name) v lines hkey
  constructor
  · refine ⟨?_, ?_, ?_⟩
    · rw [h1]; rfl
    · rw [h1]
      show (persist_token_to_env (get_env_var_name name) v (some lines)).bind
          (lookupEnvLines (get_env_var_name name)) = some v
      simp only [persist_token_to_env]
      rw [if_pos hupd.1]
      simpa using hupd.2
    · rw [h1]; rfl
  · show processHeader _ (sessionHeader v) = _
    rw [processHeader_session _ v hv]
    exact if_pos rfl

/-- Witness for C1 at the concrete rotation of the repository's own test
(`test_parse_set_cookie_header`). -/
theorem session_rotation_roundtrip_witness :
    (cleanTok "new_token_456".toList = true ∧
     ["GRAFANA_SESSION_TEST=old_token_123".toList].any
        (fun l => pyStartsWith l (get_env_var_name "test".toList ++ ['='])) = true ∧
     "new_token_456".toList ≠ "old_token_123".toList) ∧
    (((check_and_update_session_cookie
        ⟨"old_token_123".toList, some ["GRAFANA_SESSION_TEST=old_token_123".toList],
          "old_token_123".toList, "test".toList, []⟩
        [sessionHeader "new_token_456".toList]).token = "new_token_456".toList ∧
      (check_and_update_session_cookie
        ⟨"old_token_123".toList, some ["GRAFANA_SESSION_TEST=old_token_123".toList],
          "old_token_123".toList, "test".toList, []⟩
        [sessionHeader "new_token_456".toList]).envFile.bind
          (lookupEnvLines (get_env_var_name "test".toList)) = some "new_token_456".toList ∧
      (check_and_update_session_cookie
        ⟨"old_token_123".toList, some ["GRAFANA_SESSION_TEST=old_token_123".toList],
          "old_token_123".toList, "test".toList, []⟩
        [sessionHeader "new_token_456".toList]).cookie = "new_token_456".toList) ∧
     check_and_update_session_cookie
        ⟨"new_token_456".toList, some ["GRAFANA_SESSION_TEST=old_token_123".toList],
          "new_token_456".toList, "test".toList, []⟩
        [sessionHeader "new_token_456".toList] =
      ⟨"new_token_456".toList, some ["GRAFANA_SESSION_TEST=old_token_123".toList],
        "new_token_456".toList, "test".toList, []⟩) :=
  ⟨⟨by decide, by decide, by decide⟩,
   session_rotation_roundtrip "test".toList "new_token_456".toList "old_token_123".toList
     ["GRAFANA_SESSION_TEST=old_token_123".toList] (by decide) (by decide) (by decide)⟩

/-- C2 counterexample: a 401 response carrying a rotated
`grafana_session` cookie is classified and raised before the rotation check
runs, so neither the in-memory token nor the credential store is updated —
refuting the claim that rotation is detected and persisted on every
response. -/
theorem rotation_not_checked_on_error_counterexample :
    (pyGet
        ⟨"old".toList, some ["GRAFANA_SESSION_TEST=old".toList], "old".toList, "test".toList, []⟩
        (⟨401, ["grafana_session=new_rotated; Path=/".toList], (0 : Nat),
          "unauthorized".toList⟩ : HttpResponse Nat)).1 =
      .error (.authExpired "test".toList) ∧
    (pyGet
        ⟨"old".toList, some ["GRAFANA_SESSION_TEST=old".toList], "old".toList, "test".toList, []⟩
        (⟨401, ["grafana_session=new_rotated; Path=/".toList], (0 : Nat),
          "unauthorized".toList⟩ : HttpResponse Nat)).2.token = "old".toList ∧
    (pyGet
        ⟨"old".toList, some ["GRAFANA_SESSION_TEST=old".toList], "old".toList, "test".toList, []⟩
        (⟨401, ["grafana_session=new_rotated; Path=/".toList], (0 : Nat),
          "unauthorized".toList⟩ : HttpResponse Nat)).2.envFile =
      some ["GRAFANA_SESSION_TEST=old".toList] ∧
    (pyGet
        ⟨"old".toList, some ["GRAFANA_SESSION_TEST=old".toList], "old".toList, "test".toList, []⟩
        (⟨401, ["grafana_session=new_rotated; Path=/".toList], (0 : Nat),
          "unauthorized".toList⟩ : HttpResponse Nat)).2.writes = [] := by
  refine ⟨rfl, rfl, rfl, rfl⟩

/-- C2 amended: the rotation check of `_get` runs exactly on successful
(2xx) responses; on any non-2xx response the request raises after the
credential reload and before the cookie check, leaving the state (beyond
the reload) untouched and issuing no store write. -/
theorem rotation_checked_only_on_success {α : Type} (st : ConnState) (resp : HttpResponse α)
    (tok : List Char)
    (hre : st.envFile.bind (lookupEnvLines (get_env_var_name st.name)) = some tok)
    (hne : tok.isEmpty = false) :
    (200 ≤ resp.status ∧ resp.status < 300 →
      pyGet st resp = (.ok resp.body,
        check_and_update_session_cookie { st with token := tok, cookie := tok } resp.setCookies)) ∧
    (¬(200 ≤ resp.status ∧ resp.status < 300) →
      (pyGet st resp).2 = { st with token := tok, cookie := tok } ∧
      (pyGet st resp).1.isOk = false) := by
  have hmain : pyGet st resp =
      (if 200 ≤ resp.status ∧ resp.status < 300 then
        (.ok resp.body,
          check_and_update_session_cookie { st with token := tok, cookie := tok } resp.setCookies)
      else if resp.status = 401 then (.error (.authExpired st.name), { st with token := tok, cookie := tok })
      else if resp.status = 403 then (.error (.permissionDenied st.name), { st with token := tok, cookie := tok })
      else (.error (.httpError resp.status resp.text), { st with token := tok, cookie := tok })) := by
    simp only [pyGet, hre]
    rw [if_neg (by rw [hne]; exact Bool.false_ne_true)]
  constructor
  · intro h2
    rw [hmain, if_pos h2]
  · intro h2
    rw [hmain, if_neg h2]
    split_ifs <;> exact ⟨rfl, rfl⟩

/-- Witness for the amended C2 at a concrete 200 response and a concrete
404 response. -/
theorem rotation_checked_only_on_success_witness :
    ((⟨"abc".toList, some ["GRAFANA_SESSION_T=abc".toList], "abc".toList, "t".toList, []⟩ :
        ConnState).envFile.bind (lookupEnvLines (get_env_var_name "t".toList)) =
      some "abc".toList ∧
     "abc".toList.isEmpty = false ∧
     ((200 : Nat) ≤ 200 ∧ (200 : Nat) < 300)) ∧
    pyGet
        (⟨"abc".toList, some ["GRAFANA_SESSION_T=abc".toList], "abc".toList, "t".toList, []⟩ :
          ConnState)
        (⟨200, ["grafana_session=zzz; Path=/".toList], (7 : Nat), "ok".toList⟩ :
          HttpResponse Nat) =
      (.ok 7,
        check_and_update_session_cookie
          ⟨"abc".toList, some ["GRAFANA_SESSION_T=abc".toList], "abc".toList, "t".toList, []⟩
          ["grafana_session=zzz; Path=/".toList]) :=
  ⟨⟨by decide, by decide, by decide⟩,
   (rotation_checked_only_on_success
      ⟨"abc".toList, some ["GRAFANA_SESSION_T=abc".toList], "abc".toList, "t".toList, []⟩
      (⟨200, ["grafana_session=zzz; Path=/".toList], (7 : Nat), "ok".toList⟩ : HttpResponse Nat)
      "abc".toList (by decide) (by decide)).1 (by decide)⟩

/-- C3 counterexample: with two `Set-Cookie` headers both carrying
`grafana_session`, the resulting token is the value of the second header,
not of the first — refuting the claim that the first matching header
determines the new token. -/
theorem multi_cookie_first_wins_counterexample :
    (check_and_update_session_cookie
        ⟨"old".toList, some ["GRAFANA_SESSION_TEST=old".toList], "old".toList, "test".toList, []⟩
        ["grafana_session=tokA; Path=/".toList, "grafana_session=tokB; Path=/".toList]).token =
      "tokB".toList ∧
    "tokB".toList ≠ "tokA".toList := by
  refine ⟨rfl, by decide⟩

/-- C3 amended: every `Set-Cookie` header carrying the `grafana_session`
credential name is applied in order, so the last such header determines the
final token (the last one wins, not the first); headers that do not carry
the credential name leave the connector state unchanged. -/
theorem multi_cookie_last_wins :
    (∀ (st : ConnState) (hdrs : List (List Char)) (v : List Char), cleanTok v = true →
      (check_and_update_session_cookie st (hdrs ++ [sessionHeader v])).token = v) ∧
    (∀ (st : ConnState) (hdrs : List (List Char)),
      (∀ h ∈ hdrs, containsSub "grafana_session=".toList h = false) →
      check_and_update_session_cookie st hdrs = st) := by
  constructor
  · intro st hdrs v hv
    unfold check_and_update_session_cookie
    rw [List.foldl_append]
    exact token_after_sessionHeader _ v hv
  · intro st hdrs h
    induction hdrs with
    | nil => rfl
    | cons a t ih =>
      have ha := h a (List.mem_cons_self a t)
      have hskip : processHeader st a = st := by
        unfold processHeader
        rw [ha]
        simp
      show List.foldl processHeader st (a :: t) = st
      rw [List.foldl_cons, hskip]
      exact ih (fun x hx => h x (List.mem_cons_of_mem a hx))

/-- Witness for the amended C3: an unrelated cookie header followed by a
session header; the session value is applied and the unrelated-only case is
a no-op. -/
theorem multi_cookie_last_wins_witness :
    (cleanTok "tokB".toList = true ∧
     (check_and_update_session_cookie
        ⟨"old".toList, some ["GRAFANA_SESSION_TEST=old".toList], "old".toList, "test".toList, []⟩
        (["other_cookie=value1; Path=/".toList] ++ [sessionHeader "tokB".toList])).token =
       "tokB".toList) ∧
    ((∀ h ∈ ["grafana_session_expiry=1234567890; Path=/".toList],
        containsSub "grafana_session=".toList h = false) ∧
     check_and_update_session_cookie
        ⟨"old".toList, some ["GRAFANA_SESSION_TEST=old".toList], "old".toList, "test".toList, []⟩
        ["grafana_session_expiry=1234567890; Path=/".toList] =
      ⟨"old".toList, some ["GRAFANA_SESSION_TEST=old".toList], "old".toList, "test".toList, []⟩) :=
  ⟨⟨by decide,
    multi_cookie_last_wins.1
      ⟨"old".toList, some ["GRAFANA_SESSION_TEST=old".toList], "old".toList, "test".toList, []⟩
      ["other_cookie=value1; Path=/".toList] "tokB".toList (by decide)⟩,
   ⟨by decide,
    multi_cookie_last_wins.2
      ⟨"old".toList, some ["GRAFANA_SESSION_TEST=old".toList], "old".toList, "test".toList, []⟩
      ["grafana_session_expiry=1234567890; Path=/".toList] (by decide)⟩⟩

/-- C4: every dispatched tool taking a `connection_name`, called with a name
absent from the registry, fails with the unknown-connection error listing
all configured names and performs no connector (network) call. -/
theorem unknown_connection_guard (connectors : List String) (op : ServerOp) (name : String)
    (h : connectors.contains name = false) :
    dispatchOp connectors op name = (.error (unknownConnectionMessage name connectors), []) := by
  unfold dispatchOp
  rw [h]
  simp

/-- Witness for C4 on a concrete registry and unknown name. -/
theorem unknown_connection_guard_witness :
    (["prod", "staging"] : List String).contains "dev" = false ∧
    dispatchOp ["prod", "staging"] ServerOp.getHealth "dev" =
      (.error (unknownConnectionMessage "dev" ["prod", "staging"]), []) :=
  ⟨by decide, unknown_connection_guard ["prod", "staging"] ServerOp.getHealth "dev" (by decide)⟩

/-- C5: when the unified-alerting call fails, `list_alerts` falls back to
the legacy path instead of propagating the error (the result is always a
success value); when both calls fail it returns the empty list. -/
theorem list_alerts_degrade :
    (∀ (fu : Option String) (e : String) (lr : Except String (List LegacyAlert)),
      list_alerts fu (.error e) lr = list_legacy_alerts lr) ∧
    (∀ (fu : Option String) (e : String) (lr : Except String (List LegacyAlert)),
      (list_alerts fu (.error e) lr).isOk = true) ∧
    (∀ (fu : Option String) (e1 e2 : String),
      list_alerts fu (.error e1) (.error e2) = .ok []) := by
  refine ⟨fun fu e lr => rfl, ?_, fun fu e1 e2 => rfl⟩
  intro fu e lr
  cases lr <;> rfl

/-- C6 (spec-modelled): `explore_query` called with an additional option
whose key is reserved fails with `InvalidArgument` and issues no network
request. -/
theorem explore_query_reserved_rejected (qs : List String) (rf rt : String)
    (mdp ims : Nat) (opts : List (String × String))
    (h : opts.any (fun kv => exploreReservedKeys.contains kv.1) = true) :
    (∃ k, (explore_query qs rf rt mdp ims opts).1 = .error (.invalidArgument k) ∧
        exploreReservedKeys.contains k = true) ∧
    (explore_query qs rf rt mdp ims opts).2 = [] := by
  have hsome : (opts.find? (fun kv => exploreReservedKeys.contains kv.1)).isSome = true := by
    rw [List.find?_isSome]
    obtain ⟨kv, hmem, hkv⟩ := List.any_eq_true.mp h
    exact ⟨kv, hmem, hkv⟩
  obtain ⟨kv', hf⟩ := Option.isSome_iff_exists.mp hsome
  have hp' : exploreReservedKeys.contains kv'.1 = true := by
    have hq := List.find?_some hf
    simpa using hq
  unfold explore_query
  rw [hf]
  exact ⟨⟨kv'.1, rfl, hp'⟩, rfl⟩

/-- Witness for C6 at the input of the repository test
`test_explore_query_rejects_conflicting_option`. -/
theorem explore_query_reserved_rejected_witness :
    ([("queries", "x")] : List (String × String)).any
        (fun kv => exploreReservedKeys.contains kv.1) = true ∧
    ((∃ k, (explore_query ["q"] "now-1h" "now" 500 1000 [("queries", "x")]).1 =
        .error (.invalidArgument k) ∧ exploreReservedKeys.contains k = true) ∧
     (explore_query ["q"] "now-1h" "now" 500 1000 [("queries", "x")]).2 = []) :=
  ⟨by decide,
   explore_query_reserved_rejected ["q"] "now-1h" "now" 500 1000 [("queries", "x")] (by decide)⟩

/-- C7 counterexample: the name consisting of the single character `_` is
made only of characters from `[A-Za-z0-9_-]`, yet the validator rejects it
(stripping underscores and hyphens leaves the empty string, and `isalnum`
on the empty string is false). -/
theorem name_validation_counterexample :
    (['_'] : List Char).all allowedNameChar = true ∧
    validate_connection_name ['_'] = false := by
  decide

theorem filter_all_alnum (v : List Char) :
    ((v.filter (fun c => c ≠ '_' && c ≠ '-')).all pyIsAlnumChar) = v.all allowedNameChar := by
  induction v with
  | nil => rfl
  | cons c t ih =>
    by_cases hu : c = '_'
    · subst hu
      have hp : (decide (('_' : Char) ≠ '_') && decide (('_' : Char) ≠ '-')) = false := by decide
      have hal : allowedNameChar '_' = true := by decide
      simp only [List.filter_cons, hp, Bool.false_eq_true, if_false, ih, List.all_cons, hal,
        Bool.true_and]
    · by_cases hm : c = '-'
      · subst hm
        have hp : (decide (('-' : Char) ≠ '_') && decide (('-' : Char) ≠ '-')) = false := by decide
        have hal : allowedNameChar '-' = true := by decide
        simp only [List.filter_cons, hp, Bool.false_eq_true, if_false, ih, List.all_cons, hal,
          Bool.true_and]
      · have hp : (decide (c ≠ '_') && decide (c ≠ '-')) = true := by simp [hu, hm]
        have hal : allowedNameChar c = pyIsAlnumChar c := by
          unfold allowedNameChar pyIsAlnumChar
          simp [hu, hm]
        simp only [List.filter_cons, hp, if_true, List.all_cons, ih, hal]

/-- C7 amended: a name is accepted by `validate_connection_name` iff all its
characters lie in `[A-Za-z0-9_-]` and at least one of them is a letter or a
digit; in particular any name with a character outside the set is rejected,
and a name made only of underscores and hyphens (or the empty name) —
although inside the set — is rejected too (ASCII fragment of the Python
semantics). -/
theorem name_validation_char_class (v : List Char) :
    validate_connection_name v = (v.all allowedNameChar && v.any pyIsAlnumChar) := by
  induction v with
  | nil => rfl
  | cons c t ih =>
    by_cases hu : c = '_'
    · subst hu
      have hp : (decide (('_' : Char) ≠ '_') && decide (('_' : Char) ≠ '-')) = false := by decide
      have hlhs : validate_connection_name ('_' :: t) = validate_connection_name t := by
        unfold validate_connection_name
        simp only [List.filter_cons, hp, Bool.false_eq_true, if_false]
      rw [hlhs, ih]
      have hal : allowedNameChar '_' = true := by decide
      have han : pyIsAlnumChar '_' = false := by decide
      simp [List.all_cons, List.any_cons, hal, han]
    · by_cases hm : c = '-'
      · subst hm
        have hp : (decide (('-' : Char) ≠ '_') && decide (('-' : Char) ≠ '-')) = false := by decide
        have hlhs : validate_connection_name ('-' :: t) = validate_connection_name t := by
          unfold validate_connection_name
          simp only [List.filter_cons, hp, Bool.false_eq_true, if_false]
        rw [hlhs, ih]
        have hal : allowedNameChar '-' = true := by decide
        have han : pyIsAlnumChar '-' = false := by decide
        simp [List.all_cons, List.any_cons, hal, han]
      · have hp : (decide (c ≠ '_') && decide (c ≠ '-')) = true := by simp [hu, hm]
        by_cases ha : pyIsAlnumChar c = true
        · have hallowed : allowedNameChar c = true := by
            unfold allowedNameChar
            unfold pyIsAlnumChar at ha
            rcases Bool.or_eq_true_iff.mp ha with h1 | h2
            · simp [h1]
            · simp [h2]
          unfold validate_connection_name pyIsAlnum
          simp only [List.filter_cons, hp, if_true, List.isEmpty_cons, Bool.not_false,
            Bool.true_and, List.all_cons, ha, List.any_cons, hallowed, Bool.true_or,
            Bool.and_true, filter_all_alnum]
        · have ha' : pyIsAlnumChar c = false := by simpa using ha
          have hallowed : allowedNameChar c = false := by
            unfold pyIsAlnumChar at ha'
            have h1 : c.isAlpha = false := by
              cases hh : c.isAlpha
              · rfl
              · rw [hh] at ha'; simp at ha'
            have h2 : c.isDigit = false := by
              cases hh : c.isDigit
              · rfl
              · rw [hh] at ha'; simp at ha'
            unfold allowedNameChar
            simp [h1, h2, hu, hm]
          unfold validate_connection_name pyIsAlnum
          simp only [List.filter_cons, hp, if_true, List.isEmpty_cons, Bool.not_false,
            Bool.true_and, List.all_cons, ha', Bool.false_and, List.any_cons, hallowed]

/-- C8: persisting a rotated token is a no-op when the credential file does
not exist; otherwise it rewrites exactly the first line keyed by the
connection's derived identifier, leaving the file untouched when no line
matches and preserving every other line unchanged. -/
theorem persist_token_frame (key tok : List Char) :
    persist_token_to_env key tok none = none ∧
    (∀ lines : List (List Char),
      List.findIdx? (fun l => pyStartsWith l (key ++ ['='])) lines = none →
      persist_token_to_env key tok (some lines) = some lines) ∧
    (∀ (lines : List (List Char)) (i : Nat),
      List.findIdx? (fun l => pyStartsWith l (key ++ ['='])) lines = some i →
      persist_token_to_env key tok (some lines) = some (lines.set i (key ++ '=' :: tok)) ∧
      ∀ j : Nat, j ≠ i → (lines.set i (key ++ '=' :: tok))[j]? = lines[j]?) := by
  refine ⟨rfl, ?_, ?_⟩
  · intro lines hnone
    have hall := List.findIdx?_eq_none_iff.mp hnone
    simp only [persist_token_to_env]
    rw [pyLinesUpdate_no_match key tok lines hall]
    simp
  · intro lines i hfind
    constructor
    · simp only [persist_token_to_env]
      rw [pyLinesUpdate_match key tok lines i hfind]
      simp
    · intro j hj
      exact List.getElem?_set_ne (Ne.symm hj)

/-- Witness for C8 at a concrete three-line credential file whose middle
line matches. -/
theorem persist_token_frame_witness :
    List.findIdx? (fun l => pyStartsWith l ("K".toList ++ ['=']))
        ["A=1".toList, "K=old".toList, "B=2".toList] = some 1 ∧
    persist_token_to_env "K".toList "new".toList
        (some ["A=1".toList, "K=old".toList, "B=2".toList]) =
      some (["A=1".toList, "K=old".toList, "B=2".toList].set 1 ("K".toList ++ '=' :: "new".toList)) :=
  ⟨by decide,
   ((persist_token_frame "K".toList "new".toList).2.2
      ["A=1".toList, "K=old".toList, "B=2".toList] 1 (by decide)).1⟩

/-- C9: `list_connections` output consists of exactly the non-secret fields
(name, url, description, timeout, verify_ssl) of each configured
connection, and is unchanged under any replacement of the session tokens —
the token never influences (nor appears in) the output. -/
theorem list_connections_nonsecret :
    (∀ (conns : List ConnRecord) (f : ConnRecord → Option String),
      server_list_connections (conns.map (fun c => { c with session_token := f c })) =
        server_list_connections conns) ∧
    (∀ conns : List ConnRecord, conns ≠ [] →
      server_list_connections conns = .connections (conns.map connInfoOf)) := by
  constructor
  · intro conns f
    cases conns with
    | nil => rfl
    | cons a t =>
      show ListConnectionsResult.connections _ = ListConnectionsResult.connections _
      rw [List.map_map]
      rfl
  · intro conns h
    cases conns with
    | nil => exact absurd rfl h
    | cons a t => rfl

/-- Witness for C9 at a one-connection registry carrying a secret token. -/
theorem list_connections_nonsecret_witness :
    (([⟨"prod", "https://g.example.com", "main", 60, false, some "secret_tok"⟩] :
        List ConnRecord) ≠ []) ∧
    server_list_connections
        [⟨"prod", "https://g.example.com", "main", 60, false, some "secret_tok"⟩] =
      .connections
        (([⟨"prod", "https://g.example.com", "main", 60, false, some "secret_tok"⟩] :
          List ConnRecord).map connInfoOf) :=
  ⟨by decide,
   list_connections_nonsecret.2
     [⟨"prod", "https://g.example.com", "main", 60, false, some "secret_tok"⟩] (by decide)⟩

theorem isPrefixOf_nil_left (l : List Char) : (([] : List Char)).isPrefixOf l = true := by
  cases l <;> rfl

theorem pyStartsWithS_empty (s : String) : pyStartsWithS s "" = true := by
  unfold pyStartsWithS
  exact isPrefixOf_nil_left s.toList

theorem nsSkipped_none (ns : String) : nsSkipped none ns = false := rfl

theorem formatUnifiedRules_some_eq_filter (f : String)
    (rules : List (String × List RuleGroup)) :
    formatUnifiedRules (some f) rules =
      formatUnifiedRules none (rules.filter (fun p => pyStartsWithS p.1 f)) := by
  induction rules with
  | nil => rfl
  | cons p l ih =>
    by_cases hp : pyStartsWithS p.1 f = true
    · have hskip : nsSkipped (some f) p.1 = false := by
        simp [nsSkipped, hp]
      simp only [formatUnifiedRules, List.map_cons, List.flatten_cons] at ih ⊢
      rw [List.filter_cons, if_pos hp]
      simp only [List.map_cons, List.flatten_cons, hskip, nsSkipped_none, Bool.false_eq_true,
        if_false, ih]
    · have hp' : pyStartsWithS p.1 f = false := by simpa using hp
      have hf : f.isEmpty = false := by
        cases hfe : f.isEmpty
        · rfl
        · exact absurd (((String.isEmpty_iff f).mp hfe) ▸ pyStartsWithS_empty p.1) hp
      have hskip : nsSkipped (some f) p.1 = true := by
        simp [nsSkipped, hp', hf]
      simp only [formatUnifiedRules, List.map_cons, List.flatten_cons] at ih ⊢
      rw [List.filter_cons, if_neg hp]
      simp only [hskip, if_true, List.nil_append, ih]

/-- C10: `list_alerts` with a `folder_uid` argument keeps exactly the
unified rules whose namespace key has `folder_uid` as a string prefix —
prefix matching, not exact equality — so a namespace merely beginning with
`folder_uid` is also returned. -/
theorem list_alerts_folder_prefix_filter (f : String)
    (rules : List (String × List RuleGroup)) (lr : Except String (List LegacyAlert)) :
    list_alerts (some f) (.ok rules) lr =
      .ok ((formatUnifiedRules none
        (rules.filter (fun p => pyStartsWithS p.1 f))).map .unified) := by
  show Except.ok ((formatUnifiedRules (some f) rules).map AlertEntry.unified) = _
  rw [formatUnifiedRules_some_eq_filter]
